import Mathlib

/-!
# Verification of the 1040NR tax-filing workflow engine

Shallow embedding of the repository `jayanta8509/1040NR_TAX`:

* `process.py` — the workflow engine (`TaxProcessingWorkflow`): question
  initialisation, per-user progress tracking, answer validation dispatch.
* `validation_intelegent.py` — the answer classifier's result schema
  (`validation` pydantic model).  The LLM classifier itself is modelled as
  an oracle function supplied to the engine.
* `question_generator.py` — question generation with a static fallback.
* `client.py` — session memory (Redis) writes and the answering agent's
  entry points.  The LLM agent is modelled as an oracle function.
* `app.py` — the HTTP endpoint's dispatch between start and answer.

External effects (LLM calls, wall-clock timestamps, Redis, the filesystem)
are passed explicitly: LLM collaborators as function arguments, timestamps
as `now : String` arguments, and each JSON/Redis store as an
`Option`-valued state threaded through the functions.
-/

namespace TaxWorkflow

/-- Result schema of the answer classifier
(`validation_intelegent.py`, `class validation(BaseModel)`). -/
structure validation where
  is_tax_related : Bool
  validation_indenty : Bool
deriving DecidableEq

/-- One recorded answer, the value stored at key `question_{i}` in
`progress["answers"]` (`process.py` lines 113-119 / 161-167). -/
structure AnswerRec where
  question : String
  ai_response : String
  human_response : String
  wants_update : Bool
  timestamp : String
deriving DecidableEq

/-- The per-user progress record persisted to `progress_{user_id}.json`
(`process.py`).  The answers dict keyed by `question_{i}` is modelled as a
function from the index `i`; `last_ai_response` is read through
`progress.get("last_ai_response", "")`, so it is a plain string defaulting
to `""` in the initial record. -/
structure Progress where
  user_id : String
  current_question_index : Nat
  completed_questions : List Nat
  answers : Nat → Option AnswerRec
  last_ai_response : String
  last_updated : String

/-- The default progress record built by `load_progress` when no progress
file exists (`process.py` lines 61-68). -/
def load_progress_default (user_id : String) (now : String) : Progress :=
  { user_id := user_id
    current_question_index := 0
    completed_questions := []
    answers := fun _ => none
    last_ai_response := ""
    last_updated := now }

/-- `save_progress` (`process.py` lines 70-75): stamps `last_updated` and
persists; the returned record is the persisted state. -/
def save_progress (now : String) (p : Progress) : Progress :=
  { p with last_updated := now }

/-- The result dict returned by the workflow entry points.  Keys absent
from a given return path are `none`; `status` is the literal status
string of the Python dict. -/
structure WfResult where
  status : String
  message : Option String
  question_number : Option Nat
  total_questions : Nat
  question : Option String
  ai_response : Option String
  completed : Option Nat
  completed_questions : Option Nat
  final_response : Option String
  validation_result : Option Bool

/-- The tail of `process_next_question` (`process.py` lines 200-235), also
reached directly when no previous question exists: if the cursor is past
the catalog, persist and report completion; otherwise serve
`questions[current_index]` through the answering agent `ask`, advance the
cursor, persist.  `vres` is the `validation_wants_update` local that ends
up in the `validation_result` key. -/
def ask_current_question (questions : List String) (ask : String → String)
    (now : String) (vres : Option Bool) (p : Progress) : Progress × WfResult :=
  if questions.length ≤ p.current_question_index then
    (save_progress now p,
     { status := "completed"
       message := some "🎉 All questions have been completed!"
       question_number := none
       total_questions := questions.length
       question := none
       ai_response := none
       completed := none
       completed_questions := some p.completed_questions.length
       final_response := none
       validation_result := none })
  else
    let current_question := questions.getD p.current_question_index ""
    let ai_response := ask current_question
    let p2 := save_progress now
      { p with last_ai_response := ai_response
               current_question_index := p.current_question_index + 1 }
    (p2,
     { status := "in_progress"
       message := none
       question_number := some (p.current_question_index + 1)
       total_questions := questions.length
       question := some current_question
       ai_response := some ai_response
       completed := some p.completed_questions.length
       completed_questions := none
       final_response := none
       validation_result := vres })

/-- `TaxProcessingWorkflow.process_next_question` (`process.py` lines
77-235).  `ask` is the answering agent (`client.ask_question`), `validate`
the answer classifier (`validation_intelegent.validation_identification`),
both modelled as oracles; `now` is the wall clock.  Returns the persisted
progress and the result dict. -/
def process_next_question (questions : List String) (ask : String → String)
    (validate : String → String → String → validation) (now : String)
    (p : Progress) (human_response : String) : Progress × WfResult :=
  let current_index := p.current_question_index
  if 0 < current_index ∧ current_index ≤ questions.length then
    let prev_question := questions.getD (current_index - 1) ""
    let prev_ai_response := p.last_ai_response
    if current_index = questions.length then
      -- terminal question: no validation, record, complete, acknowledge
      let p1 : Progress :=
        { p with answers := fun j =>
            if j = current_index - 1 then
              some { question := prev_question
                     ai_response := prev_ai_response
                     human_response := human_response
                     wants_update := false
                     timestamp := now }
            else p.answers j }
      let p2 : Progress :=
        { p1 with completed_questions :=
            if (current_index - 1) ∈ p1.completed_questions then
              p1.completed_questions
            else p1.completed_questions ++ [current_index - 1] }
      let ai_response := ask human_response
      let p3 := save_progress now { p2 with last_ai_response := ai_response }
      (p3,
       { status := "completed"
         message := some "🎉 All questions have been completed!"
         question_number := none
         total_questions := questions.length
         question := none
         ai_response := none
         completed := none
         completed_questions := some p3.completed_questions.length
         final_response := some ai_response
         validation_result := none })
    else
      -- not the last question: classify the reply
      let vr := validate prev_question prev_ai_response human_response
      let wants_to_update := vr.validation_indenty
      let p1 : Progress :=
        { p with answers := fun j =>
            if j = current_index - 1 then
              some { question := prev_question
                     ai_response := prev_ai_response
                     human_response := human_response
                     wants_update := wants_to_update
                     timestamp := now }
            else p.answers j }
      if wants_to_update then
        -- ask the human response itself as the next question
        let ai_response := ask human_response
        let p2 := save_progress now { p1 with last_ai_response := ai_response }
        (p2,
         { status := "in_progress"
           message := none
           question_number := some current_index
           total_questions := questions.length
           question := some human_response
           ai_response := some ai_response
           completed := some p2.completed_questions.length
           completed_questions := none
           final_response := none
           validation_result := some true })
      else
        -- confirmed: mark completed and fall through to the next question
        let p2 : Progress :=
          { p1 with completed_questions :=
              if (current_index - 1) ∈ p1.completed_questions then
                p1.completed_questions
              else p1.completed_questions ++ [current_index - 1] }
        ask_current_question questions ask now (some false) p2
  else
    ask_current_question questions ask now none p

/-- `TaxProcessingWorkflow.start_workflow` (`process.py` lines 237-283).
Note the completed branch returns without calling `save_progress`. -/
def start_workflow (questions : List String) (ask : String → String)
    (now : String) (p : Progress) : Progress × WfResult :=
  if questions.length ≤ p.current_question_index then
    (p,
     { status := "completed"
       message := some "🎉 All questions have been completed!"
       question_number := none
       total_questions := questions.length
       question := none
       ai_response := none
       completed := none
       completed_questions := some p.completed_questions.length
       final_response := none
       validation_result := none })
  else
    let current_question := questions.getD p.current_question_index ""
    let ai_response := ask current_question
    let p2 := save_progress now
      { p with last_ai_response := ai_response
               current_question_index := p.current_question_index + 1 }
    (p2,
     { status := "started"
       message := none
       question_number := some (p.current_question_index + 1)
       total_questions := questions.length
       question := some current_question
       ai_response := some ai_response
       completed := some p.completed_questions.length
       completed_questions := none
       final_response := none
       validation_result := none })

/-- The dict `{"question": [...]}` returned by the question generator
(`question_generator.py`). -/
structure QuestionsDict where
  question : List String
deriving DecidableEq

/-- The structured catalog persisted to `questions_{user_id}.json`
(`process.py` lines 36-41). -/
structure QuestionsData where
  user_id : String
  generated_at : String
  questions : List String
  total_questions : Nat
deriving DecidableEq

/-- `TaxProcessingWorkflow.initialize_questions` (`process.py` lines
26-54).  The store models the `questions_{user_id}.json` file (`none` =
file absent); `generated` is the dict the question generator returned on
this invocation (only consulted when the file is absent).  Returns the
catalog and the new file state. -/
def init_questions (user_id : String) (now : String) (generated : QuestionsDict)
    (store : Option QuestionsData) : QuestionsData × Option QuestionsData :=
  match store with
  | none =>
      let structured_questions : QuestionsData :=
        { user_id := user_id
          generated_at := now
          questions := generated.question
          total_questions := generated.question.length }
      (structured_questions, some structured_questions)
  | some existing => (existing, some existing)

/-- Outcome of one invocation of the LLM question generator agent inside
`generate_questions` (`question_generator.py` lines 98-107): the
structured questions, an `asyncio.TimeoutError`, or any other raised
exception (API error, missing key, ...). -/
inductive GenOutcome where
  | ok (questions : List String)
  | timeout
  | err (e : String)
deriving DecidableEq

/-- The static fallback catalog `generate_fallback_questions`
(`question_generator.py` lines 114-172). -/
def generate_fallback_questions : QuestionsDict :=
  { question := [
      "What is your full legal name? (First, Middle, Last)",
      "What is your date of birth? (MM/DD/YYYY)",
      "What is your complete current US address? (Street, Apt/Unit, City, State, ZIP, Country)",
      "What is your current occupation and source of US income?",
      "Do you have an ITIN? If yes, what is it?",
      "What is your passport number, issuing country, and expiration date?",
      "What is your visa type and which country issued it?",
      "What was your first entry date to the US and your last exit date? (MM/DD/YYYY for both)",
      "How many days were you physically present in the US during the current tax year, previous year, and two years ago?",
      "Are you claiming tax treaty benefits? If yes, which country and treaty article?",
      "If claiming treaty benefits, what type of income is covered, what is the exempt amount, and are you a resident of the treaty country?",
      "What were your W-2 wages and scholarship/fellowship amounts from Form 1042-S?",
      "What were your other income amounts: interest, dividends, capital gains, rental income, and self-employment income (ECI)?",
      "How much federal tax was withheld from your W-2, 1042-S, and 1099 forms?",
      "Which of the following tax forms do you have: W-2, 1042-S, 1099, or K-1?",
      "What are your itemized deduction amounts for state/local taxes, charitable contributions, and casualty losses?",
      "What are your education-related expenses and student loan interest amounts?",
      "How many dependents do you have?",
      "What is your preferred refund method: check or ACH (direct deposit)?",
      "If choosing direct deposit, what is your bank routing number and the last 4 digits of your account number?" ] }

/-- `generate_questions` (`question_generator.py` lines 86-112).  The
`try` block covers the agent invocation and result extraction; the only
`except` clause catches `asyncio.TimeoutError` and substitutes the static
fallback.  Any other exception propagates, modelled as `Except.error`. -/
def generate_questions (outcome : GenOutcome) : Except String QuestionsDict :=
  match outcome with
  | GenOutcome.ok questions_list => Except.ok { question := questions_list }
  | GenOutcome.timeout => Except.ok generate_fallback_questions
  | GenOutcome.err e => Except.error e

/-! ## Session memory (`client.py`) -/

/-- A chat message in the stored conversation. -/
structure Message where
  role : String
  content : String
deriving DecidableEq

/-- The dict stored under `conversation:{user_id}` in Redis
(`client.py`, `store_conversation_memory`).  `client_id`/`reference` are
nullable; `none` models JSON `null`. -/
structure MemoryData where
  messages : List Message
  client_id : Option String
  reference : Option String
  metadata : List (String × String)
  last_updated : String
  user_id : String
deriving DecidableEq

/-- Python truthiness of an `Optional[str]`: falsy exactly when `None` or
the empty string. -/
def pyTruthy (s : Option String) : Bool :=
  match s with
  | none => false
  | some s => !(s == "")

/-- `store_conversation_memory` (`client.py` lines 214-234): builds the
memory dict from its arguments and `setex`es it, replacing whatever was
stored.  The returned record is the new stored value for the user. -/
def store_conversation_memory (user_id : String) (messages : List Message)
    (client_id : Option String) (reference : Option String)
    (metadata : Option (List (String × String))) (now : String) : MemoryData :=
  { messages := messages
    client_id := client_id
    reference := reference
    metadata := metadata.getD []
    last_updated := now
    user_id := user_id }

/-- `get_conversation_memory` (`client.py` lines 236-245): the stored dict,
or the fallback `{"messages": [], "metadata": {}}` when nothing is stored
(absent keys modelled as `none`/`""`). -/
def get_conversation_memory (store : Option MemoryData) : MemoryData :=
  match store with
  | some m => m
  | none =>
      { messages := []
        client_id := none
        reference := none
        metadata := []
        last_updated := ""
        user_id := "" }

/-- `memory_data.get('client_id', None)` as performed in `ask_question`
(`client.py` line 449). -/
def dictGetClientId (store : Option MemoryData) : Option String :=
  (get_conversation_memory store).client_id

/-- `memory_data.get('reference', 'individual')` as performed in
`ask_question` (`client.py` line 451): a stored dict always carries the
`reference` key (possibly null), so its value is returned as-is; the
fallback dict lacks the key, so the default applies. -/
def dictGetReference (store : Option MemoryData) : Option String :=
  match store with
  | some m => m.reference
  | none => some "individual"

/-- Python `str()` of an `Optional[str]` as interpolated by an f-string. -/
def pyStr (s : Option String) : String :=
  match s with
  | none => "None"
  | some s => s

/-- The f-string template of `ask_question` (`client.py` lines 454-582)
building `contextual_question`.  The long inert instruction text between
the interpolation points is abbreviated; only the interpolated structure
(session ids, recent context, the user question) is relevant to any
claim. -/
def contextual_question_text (client_id reference : Option String)
    (recent_context question : String) : String :=
  "You are a friendly and professional Tax Filing Assistant. SESSION INFO: Client ID: "
    ++ pyStr client_id ++ " Reference: " ++ pyStr reference ++ " "
    ++ recent_context ++ " Users Question: " ++ question

/-- `process_question` (`client.py` lines 320-374).  `agentReply` models
the LLM agent's `ainvoke` output for this call; `now` the wall clock.
Lines 330-333 merge `client_id`/`reference` into the *local* dict, but the
final `store_conversation_memory` call on line 372 passes the raw
parameters, so the merged values are discarded.  Returns the newly stored
memory and the response content. -/
def process_question (store : Option MemoryData) (agentReply : String)
    (user_question : String) (user_id : String)
    (client_id reference : Option String) (now : String) : MemoryData × String :=
  let memory_data := get_conversation_memory store
  let memory_data :=
    if pyTruthy client_id then { memory_data with client_id := client_id }
    else memory_data
  let memory_data :=
    if pyTruthy reference then { memory_data with reference := reference }
    else memory_data
  let messages := memory_data.messages ++ [{ role := "user", content := user_question }]
  let response_content := agentReply
  let messages := messages ++ [{ role := "assistant", content := response_content }]
  let stored := store_conversation_memory user_id messages client_id reference none now
  (stored, response_content)

/-- `ask_question` (`client.py` lines 437-588), memory-relevant behaviour:
missing (`None`/empty) `client_id`/`reference` are re-read from the stored
memory before the contextual question is built and `process_question` is
invoked.  `recent_context` models the string computed by
`get_recent_context` (a regex summary of recent messages, irrelevant to
the claims); the fetched-but-unused `workflow_state` of line 444 is
omitted.  Returns the newly stored memory and the agent's reply. -/
def ask_question (store : Option MemoryData) (agentReply : String)
    (question : String) (user_id : String)
    (client_id reference : Option String)
    (recent_context : String) (now : String) : MemoryData × String :=
  let client_id := if pyTruthy client_id then client_id else dictGetClientId store
  let reference := if pyTruthy reference then reference else dictGetReference store
  let contextual_question :=
    contextual_question_text client_id reference recent_context question
  process_question store agentReply contextual_question user_id client_id reference now

/-! ## HTTP dispatch (`app.py`) -/

/-- Python's `str.lower` on one character (ASCII range, which is all the
dispatch sentinel needs). -/
def pyCharLower (c : Char) : Char :=
  if 'A' ≤ c ∧ c ≤ 'Z' then Char.ofNat (c.toNat + 32) else c

/-- Python's `str.lower`. -/
def pyLower (s : String) : String := String.mk (s.data.map pyCharLower)

/-- Python's `str.strip()`: drop leading and trailing whitespace. -/
def pyStrip (s : String) : String :=
  String.mk (((s.data.dropWhile Char.isWhitespace).reverse.dropWhile
    Char.isWhitespace).reverse)

/-- The dispatch condition of `tax_workflow_endpoint` (`app.py` lines
101-111): `start_workflow` is taken exactly when
`request.human_response and request.human_response.strip().lower() == "start"`
is truthy; every other request (including a missing `human_response`) is
routed to `process_next_question`. -/
def tax_workflow_is_start (human_response : Option String) : Bool :=
  match human_response with
  | none => false
  | some s => !(s == "") && (pyLower (pyStrip s) == "start")

/-! ### Concrete probe inputs used by witnesses -/

/-- A concrete answering-agent oracle. -/
def probe_ask : String → String := fun q => "ACK " ++ q

/-- A concrete classifier oracle answering on-topic / wants-update. -/
def probe_validate_true : String → String → String → validation :=
  fun _ _ _ => { is_tax_related := true, validation_indenty := true }

/-- A concrete classifier oracle answering on-topic / keep. -/
def probe_validate_false : String → String → String → validation :=
  fun _ _ _ => { is_tax_related := true, validation_indenty := false }

/-- A concrete progress record with the cursor at `ci`. -/
def probe_progress (ci : Nat) : Progress :=
  { user_id := "u"
    current_question_index := ci
    completed_questions := []
    answers := fun _ => none
    last_ai_response := "A1"
    last_updated := "t0" }

/-- A concrete stored session memory carrying sticky `client_id` and
`reference` values. -/
def sticky_memory_probe : MemoryData :=
  { messages := []
    client_id := some "TESTDEM1"
    reference := some "individual"
    metadata := []
    last_updated := "t0"
    user_id := "u" }

/-! ### Invariants and reachable states of the engine -/

/-- The claimed invariant: `completed_questions` holds only indices
strictly below the cursor, and only indices whose last recorded answer has
`wants_update = false`. -/
def completed_invariant (p : Progress) : Prop :=
  ∀ i ∈ p.completed_questions,
    i < p.current_question_index ∧
    ∃ a, p.answers i = some a ∧ a.wants_update = false

/-- The inductive strengthening of `completed_invariant` actually
maintained by the engine: additionally, while the cursor is strictly
inside the catalog, the index just behind the cursor is not yet marked
completed (it is completed only together with advancing past it, or in
the terminal branch where the cursor sits at the catalog end). -/
def engine_inv (questions : List String) (p : Progress) : Prop :=
  completed_invariant p ∧
  (p.current_question_index < questions.length →
    (p.current_question_index - 1) ∉ p.completed_questions)

/-- Progress states reachable for a fixed catalog: the fresh record built
by `load_progress`, closed under `start_workflow` and
`process_next_question` with arbitrary oracles, replies and clocks. -/
inductive Reachable (questions : List String) (uid : String) : Progress → Prop where
  | init (now : String) : Reachable questions uid (load_progress_default uid now)
  | next_start (p : Progress) (ask : String → String) (now : String) :
      Reachable questions uid p →
      Reachable questions uid (start_workflow questions ask now p).1
  | next_answer (p : Progress) (ask : String → String)
      (validate : String → String → String → validation) (now hr : String) :
      Reachable questions uid p →
      Reachable questions uid (process_next_question questions ask validate now p hr).1

/-!
## Theorems
-/

/-- A concrete run of the engine in the normal (non-terminal, non-first)
case where the classifier returns an off-topic verdict
(`is_tax_related = false`, and per the classifier's own prompt rules
`validation_indenty = false` in that case): catalog of two questions,
cursor at 1, off-topic reply about the weather. -/
def off_topic_probe : Progress × WfResult :=
  process_next_question ["Q1", "Q2"] (fun q => "AI " ++ q)
    (fun _ _ _ => { is_tax_related := false, validation_indenty := false }) "t1"
    { user_id := "u"
      current_question_index := 1
      completed_questions := []
      answers := fun _ => none
      last_ai_response := "A1"
      last_updated := "t0" }
    "What is the weather today?"

/-- **C1**: the claim that an off-topic verdict leaves the progress state
untouched and yields an "off_topic" result is violated by the code:
`process_next_question` never reads `is_tax_related` (only
`validation_indenty`), so an off-topic reply takes the confirmed path —
the previous question is marked completed, the cursor advances,
`last_ai_response` is overwritten, and the status is "in_progress", not
"off_topic" (a status the engine can never produce, though its caller in
`app.py` lines 124-126 expects it). -/
theorem off_topic_reply_mutates_state :
    off_topic_probe.2.status = "in_progress" ∧
    off_topic_probe.2.status ≠ "off_topic" ∧
    off_topic_probe.1.current_question_index = 2 ∧
    off_topic_probe.1.completed_questions = [0] ∧
    off_topic_probe.1.last_ai_response = "AI Q2" ∧
    off_topic_probe.1.answers 0 =
      some { question := "Q1"
             ai_response := "A1"
             human_response := "What is the weather today?"
             wants_update := false
             timestamp := "t1" } :=
  ⟨rfl, by decide, rfl, rfl, rfl, rfl⟩

/-- **C6**: if a persisted catalog exists, `initialize_questions` loads and
returns it unchanged, independently of what the generator would produce —
so the question list and total count never change once persisted. -/
theorem init_questions_idempotent (user_id now : String)
    (generated generated' : QuestionsDict) (qd : QuestionsData) :
    init_questions user_id now generated (some qd) = (qd, some qd) ∧
    init_questions user_id now generated (some qd) =
      init_questions user_id now generated' (some qd) :=
  ⟨rfl, rfl⟩

/-- **C7** counterexample: a generator error other than a timeout is not
replaced by the static fallback catalog — `generate_questions` only
catches `asyncio.TimeoutError`, so any other generator error propagates
to the workflow. -/
theorem generate_questions_error_not_fallback :
    generate_questions (GenOutcome.err "RateLimitError") =
      Except.error "RateLimitError" ∧
    generate_questions (GenOutcome.err "RateLimitError") ≠
      Except.ok generate_fallback_questions :=
  ⟨rfl, by simp [generate_questions]⟩

/-- **C7** amended: on a generation timeout the static fallback catalog is
substituted and returned (a timeout is non-fatal); successful generation
returns the generated list.  Other generator errors propagate. -/
theorem generate_questions_timeout_fallback :
    generate_questions GenOutcome.timeout =
      Except.ok generate_fallback_questions ∧
    ∀ qs : List String,
      generate_questions (GenOutcome.ok qs) = Except.ok { question := qs } :=
  ⟨rfl, fun _ => rfl⟩

/-- **C10**: the unified endpoint dispatches to `start_workflow` exactly
when the stripped, lowercased `human_response` equals `"start"`; a missing
(`None`) `human_response` is routed to `process_next_question`.  In
particular a genuine answer whose text normalises to "start" is never
processed as an answer. -/
theorem tax_workflow_dispatch_start_iff :
    tax_workflow_is_start none = false ∧
    ∀ s : String,
      tax_workflow_is_start (some s) = true ↔ pyLower (pyStrip s) = "start" := by
  refine ⟨rfl, fun s => ?_⟩
  simp only [tax_workflow_is_start, Bool.and_eq_true, beq_iff_eq,
    Bool.not_eq_true', beq_eq_false_iff_ne, ne_eq]
  constructor
  · exact fun h => h.2
  · intro h
    refine ⟨fun hs => ?_, h⟩
    subst hs
    exact absurd h (by decide)

/-! ### Branch lemmas: one closed form per control path of the engine -/

/-- `ask_current_question`, cursor at or past the catalog end
(`process.py` lines 201-208): persist and report completion. -/
theorem acq_done_eq (questions : List String) (ask : String → String)
    (now : String) (v : Option Bool) (p : Progress)
    (h : questions.length ≤ p.current_question_index) :
    ask_current_question questions ask now v p =
      (save_progress now p,
       { status := "completed"
         message := some "🎉 All questions have been completed!"
         question_number := none
         total_questions := questions.length
         question := none
         ai_response := none
         completed := none
         completed_questions := some p.completed_questions.length
         final_response := none
         validation_result := none }) := by
  simp [ask_current_question, h]

/-- `ask_current_question`, cursor strictly inside the catalog
(`process.py` lines 210-235): serve the current question, advance. -/
theorem acq_serve_eq (questions : List String) (ask : String → String)
    (now : String) (v : Option Bool) (p : Progress)
    (h : p.current_question_index < questions.length) :
    ask_current_question questions ask now v p =
      ({ p with
           current_question_index := p.current_question_index + 1
           last_ai_response := ask (questions.getD p.current_question_index "")
           last_updated := now },
       { status := "in_progress"
         message := none
         question_number := some (p.current_question_index + 1)
         total_questions := questions.length
         question := some (questions.getD p.current_question_index "")
         ai_response := some (ask (questions.getD p.current_question_index ""))
         completed := some p.completed_questions.length
         completed_questions := none
         final_response := none
         validation_result := v }) := by
  simp [ask_current_question, save_progress, Nat.not_le.mpr h]

/-- `process_next_question`, terminal-question branch (`process.py` lines
105-143). -/
theorem pnq_terminal_eq (questions : List String) (ask : String → String)
    (validate : String → String → String → validation) (now : String)
    (p : Progress) (hr : String)
    (hlen : 0 < questions.length)
    (hcur : p.current_question_index = questions.length) :
    process_next_question questions ask validate now p hr =
      ({ p with
           completed_questions :=
             if questions.length - 1 ∈ p.completed_questions then
               p.completed_questions
             else p.completed_questions ++ [questions.length - 1]
           answers := fun j =>
             if j = questions.length - 1 then
               some { question := questions.getD (questions.length - 1) ""
                      ai_response := p.last_ai_response
                      human_response := hr
                      wants_update := false
                      timestamp := now }
             else p.answers j
           last_ai_response := ask hr
           last_updated := now },
       { status := "completed"
         message := some "🎉 All questions have been completed!"
         question_number := none
         total_questions := questions.length
         question := none
         ai_response := none
         completed := none
         completed_questions :=
           some (if questions.length - 1 ∈ p.completed_questions then
               p.completed_questions
             else p.completed_questions ++ [questions.length - 1]).length
         final_response := some (ask hr)
         validation_result := none }) := by
  simp [process_next_question, save_progress, hcur, hlen]

/-- `process_next_question`, wants-update branch (`process.py` lines
169-192). -/
theorem pnq_update_eq (questions : List String) (ask : String → String)
    (validate : String → String → String → validation) (now : String)
    (p : Progress) (hr : String)
    (h0 : 0 < p.current_question_index)
    (hlt : p.current_question_index < questions.length)
    (hv : (validate (questions.getD (p.current_question_index - 1) "")
            p.last_ai_response hr).validation_indenty = true) :
    process_next_question questions ask validate now p hr =
      ({ p with
           answers := fun j =>
             if j = p.current_question_index - 1 then
               some { question := questions.getD (p.current_question_index - 1) ""
                      ai_response := p.last_ai_response
                      human_response := hr
                      wants_update := true
                      timestamp := now }
             else p.answers j
           last_ai_response := ask hr
           last_updated := now },
       { status := "in_progress"
         message := none
         question_number := some p.current_question_index
         total_questions := questions.length
         question := some hr
         ai_response := some (ask hr)
         completed := some p.completed_questions.length
         completed_questions := none
         final_response := none
         validation_result := some true }) := by
  simp only [List.getD_eq_getElem?_getD] at hv
  simp [process_next_question, save_progress, h0, le_of_lt hlt,
    Nat.ne_of_lt hlt, hv]

/-- `process_next_question`, confirmed branch (`process.py` lines 193-198):
record, mark completed, fall through to serving the next question. -/
theorem pnq_confirmed_eq (questions : List String) (ask : String → String)
    (validate : String → String → String → validation) (now : String)
    (p : Progress) (hr : String)
    (h0 : 0 < p.current_question_index)
    (hlt : p.current_question_index < questions.length)
    (hv : (validate (questions.getD (p.current_question_index - 1) "")
            p.last_ai_response hr).validation_indenty = false) :
    process_next_question questions ask validate now p hr =
      ask_current_question questions ask now (some false)
        { p with
            completed_questions :=
              if p.current_question_index - 1 ∈ p.completed_questions then
                p.completed_questions
              else p.completed_questions ++ [p.current_question_index - 1]
            answers := fun j =>
              if j = p.current_question_index - 1 then
                some { question := questions.getD (p.current_question_index - 1) ""
                       ai_response := p.last_ai_response
                       human_response := hr
                       wants_update := false
                       timestamp := now }
              else p.answers j } := by
  simp only [List.getD_eq_getElem?_getD] at hv
  simp [process_next_question, h0, le_of_lt hlt, Nat.ne_of_lt hlt, hv]

/-- `process_next_question`, confirmed branch composed with the serving
tail (`process.py` lines 193-235; when the previous question is not the
last, the cursor is still inside the catalog, so the tail serves the next
question). -/
theorem pnq_confirmed_serve_eq (questions : List String) (ask : String → String)
    (validate : String → String → String → validation) (now : String)
    (p : Progress) (hr : String)
    (h0 : 0 < p.current_question_index)
    (hlt : p.current_question_index < questions.length)
    (hv : (validate (questions.getD (p.current_question_index - 1) "")
            p.last_ai_response hr).validation_indenty = false) :
    process_next_question questions ask validate now p hr =
      ({ p with
           completed_questions :=
             if p.current_question_index - 1 ∈ p.completed_questions then
               p.completed_questions
             else p.completed_questions ++ [p.current_question_index - 1]
           answers := fun j =>
             if j = p.current_question_index - 1 then
               some { question := questions.getD (p.current_question_index - 1) ""
                      ai_response := p.last_ai_response
                      human_response := hr
                      wants_update := false
                      timestamp := now }
             else p.answers j
           current_question_index := p.current_question_index + 1
           last_ai_response := ask (questions.getD p.current_question_index "")
           last_updated := now },
       { status := "in_progress"
         message := none
         question_number := some (p.current_question_index + 1)
         total_questions := questions.length
         question := some (questions.getD p.current_question_index "")
         ai_response := some (ask (questions.getD p.current_question_index ""))
         completed :=
           some (if p.current_question_index - 1 ∈ p.completed_questions then
               p.completed_questions
             else p.completed_questions ++ [p.current_question_index - 1]).length
         completed_questions := none
         final_response := none
         validation_result := some false }) := by
  rw [pnq_confirmed_eq questions ask validate now p hr h0 hlt hv]
  exact acq_serve_eq questions ask now (some false) _ hlt

/-- `process_next_question`, no previous question to validate (`process.py`
line 97 guard false: cursor `0` or past the catalog): straight to the
serve/completion tail with `validation_wants_update = None`. -/
theorem pnq_skip_eq (questions : List String) (ask : String → String)
    (validate : String → String → String → validation) (now : String)
    (p : Progress) (hr : String)
    (hguard : ¬(0 < p.current_question_index ∧
                p.current_question_index ≤ questions.length)) :
    process_next_question questions ask validate now p hr =
      ask_current_question questions ask now none p := by
  simp only [process_next_question, if_neg hguard]

/-- `start_workflow`, catalog exhausted (`process.py` lines 251-257):
returns without persisting. -/
theorem sw_done_eq (questions : List String) (ask : String → String)
    (now : String) (p : Progress)
    (h : questions.length ≤ p.current_question_index) :
    start_workflow questions ask now p =
      (p,
       { status := "completed"
         message := some "🎉 All questions have been completed!"
         question_number := none
         total_questions := questions.length
         question := none
         ai_response := none
         completed := none
         completed_questions := some p.completed_questions.length
         final_response := none
         validation_result := none }) := by
  simp [start_workflow, h]

/-- `start_workflow`, serving branch (`process.py` lines 259-283). -/
theorem sw_serve_eq (questions : List String) (ask : String → String)
    (now : String) (p : Progress)
    (h : p.current_question_index < questions.length) :
    start_workflow questions ask now p =
      ({ p with
           current_question_index := p.current_question_index + 1
           last_ai_response := ask (questions.getD p.current_question_index "")
           last_updated := now },
       { status := "started"
         message := none
         question_number := some (p.current_question_index + 1)
         total_questions := questions.length
         question := some (questions.getD p.current_question_index "")
         ai_response := some (ask (questions.getD p.current_question_index ""))
         completed := some p.completed_questions.length
         completed_questions := none
         final_response := none
         validation_result := none }) := by
  simp [start_workflow, save_progress, Nat.not_le.mpr h]

/-! ### Claim theorems for the engine paths -/

/-- **C2**: terminal-question special case.  When the cursor equals the
catalog length `N` (the previous question was the last), the classifier is
never invoked (the outcome is independent of the classifier oracle), the
answer is recorded with `wants_update = false`, index `N-1` is marked
completed, the human reply is forwarded verbatim to the answering agent,
progress is persisted, and the result is a terminal "completed" one
carrying the agent's acknowledgment as `final_response`. -/
theorem terminal_question_case
    (questions : List String) (ask : String → String)
    (validate validate' : String → String → String → validation)
    (now : String) (p : Progress) (hr : String)
    (hlen : 0 < questions.length)
    (hcur : p.current_question_index = questions.length) :
    process_next_question questions ask validate now p hr =
      process_next_question questions ask validate' now p hr ∧
    (process_next_question questions ask validate now p hr).1.answers
        (questions.length - 1) =
      some { question := questions.getD (questions.length - 1) ""
             ai_response := p.last_ai_response
             human_response := hr
             wants_update := false
             timestamp := now } ∧
    (questions.length - 1) ∈
      (process_next_question questions ask validate now p hr).1.completed_questions ∧
    (process_next_question questions ask validate now p hr).1.last_ai_response
      = ask hr ∧
    (process_next_question questions ask validate now p hr).1.last_updated
      = now ∧
    (process_next_question questions ask validate now p hr).2.status
      = "completed" ∧
    (process_next_question questions ask validate now p hr).2.final_response
      = some (ask hr) := by
  rw [pnq_terminal_eq questions ask validate now p hr hlen hcur,
    pnq_terminal_eq questions ask validate' now p hr hlen hcur]
  refine ⟨rfl, by simp, ?_, rfl, rfl, rfl, rfl⟩
  by_cases hm : questions.length - 1 ∈ p.completed_questions <;> simp [hm]

/-- Witness for C2: the hypotheses hold for a one-question catalog with the
cursor at 1, and the theorem applies there. -/
theorem terminal_question_case_witness :
    (0 < (["Q1"] : List String).length ∧
     (probe_progress 1).current_question_index = (["Q1"] : List String).length) ∧
    (process_next_question ["Q1"] probe_ask probe_validate_true "t1"
        (probe_progress 1) "done").2.status = "completed" :=
  ⟨⟨by decide, rfl⟩,
   (terminal_question_case ["Q1"] probe_ask probe_validate_true
      probe_validate_false "t1" (probe_progress 1) "done"
      (by decide) rfl).2.2.2.2.2.1⟩

/-- **C3**: normal case, classifier says on-topic and wants-update.  The
answer is recorded with `wants_update = true`, the previous index is not
added to `completed_questions` (which is unchanged), the cursor does not
advance, the human reply itself is forwarded as the next question to the
answering agent, the new `last_ai_response` is persisted, and the result
is "in_progress" with the same question number and
`validation_result = true`. -/
theorem wants_update_case
    (questions : List String) (ask : String → String)
    (validate : String → String → String → validation)
    (now : String) (p : Progress) (hr : String)
    (h0 : 0 < p.current_question_index)
    (hlt : p.current_question_index < questions.length)
    (hv : (validate (questions.getD (p.current_question_index - 1) "")
            p.last_ai_response hr).validation_indenty = true) :
    (process_next_question questions ask validate now p hr).1.answers
        (p.current_question_index - 1) =
      some { question := questions.getD (p.current_question_index - 1) ""
             ai_response := p.last_ai_response
             human_response := hr
             wants_update := true
             timestamp := now } ∧
    (process_next_question questions ask validate now p hr).1.completed_questions
      = p.completed_questions ∧
    (process_next_question questions ask validate now p hr).1.current_question_index
      = p.current_question_index ∧
    (process_next_question questions ask validate now p hr).1.last_ai_response
      = ask hr ∧
    (process_next_question questions ask validate now p hr).1.last_updated
      = now ∧
    (process_next_question questions ask validate now p hr).2.status
      = "in_progress" ∧
    (process_next_question questions ask validate now p hr).2.question_number
      = some p.current_question_index ∧
    (process_next_question questions ask validate now p hr).2.question
      = some hr ∧
    (process_next_question questions ask validate now p hr).2.ai_response
      = some (ask hr) ∧
    (process_next_question questions ask validate now p hr).2.validation_result
      = some true := by
  rw [pnq_update_eq questions ask validate now p hr h0 hlt hv]
  exact ⟨by simp, rfl, rfl, rfl, rfl, rfl, rfl, rfl, rfl, rfl⟩

/-- Witness for C3: the hypotheses hold for a two-question catalog with the
cursor at 1 and the always-update classifier, and the theorem applies. -/
theorem wants_update_case_witness :
    (0 < (probe_progress 1).current_question_index ∧
     (probe_progress 1).current_question_index < (["Q1", "Q2"] : List String).length ∧
     (probe_validate_true (["Q1", "Q2"].getD 0 "") (probe_progress 1).last_ai_response
        "no, change it").validation_indenty = true) ∧
    (process_next_question ["Q1", "Q2"] probe_ask probe_validate_true "t1"
        (probe_progress 1) "no, change it").1.current_question_index = 1 :=
  ⟨⟨by decide, by decide, rfl⟩,
   by
     have h := (wants_update_case ["Q1", "Q2"] probe_ask probe_validate_true
       "t1" (probe_progress 1) "no, change it" (by decide) (by decide) rfl).2.2.1
     simpa [probe_progress] using h⟩

/-- **C4**: normal case, classifier says on-topic and keep.  The answer is
recorded with `wants_update = false`, the previous index is added to
`completed_questions`, `catalog[current_index]` is served through the
answering agent, the cursor advances by exactly one, `last_ai_response` is
updated and progress persisted, and the result is "in_progress" with
question number `current_index + 1` and `validation_result = false`. -/
theorem confirmed_case
    (questions : List String) (ask : String → String)
    (validate : String → String → String → validation)
    (now : String) (p : Progress) (hr : String)
    (h0 : 0 < p.current_question_index)
    (hlt : p.current_question_index < questions.length)
    (hv : (validate (questions.getD (p.current_question_index - 1) "")
            p.last_ai_response hr).validation_indenty = false) :
    (process_next_question questions ask validate now p hr).1.answers
        (p.current_question_index - 1) =
      some { question := questions.getD (p.current_question_index - 1) ""
             ai_response := p.last_ai_response
             human_response := hr
             wants_update := false
             timestamp := now } ∧
    (p.current_question_index - 1) ∈
      (process_next_question questions ask validate now p hr).1.completed_questions ∧
    (process_next_question questions ask validate now p hr).1.current_question_index
      = p.current_question_index + 1 ∧
    (process_next_question questions ask validate now p hr).1.last_ai_response
      = ask (questions.getD p.current_question_index "") ∧
    (process_next_question questions ask validate now p hr).1.last_updated
      = now ∧
    (process_next_question questions ask validate now p hr).2.status
      = "in_progress" ∧
    (process_next_question questions ask validate now p hr).2.question_number
      = some (p.current_question_index + 1) ∧
    (process_next_question questions ask validate now p hr).2.question
      = some (questions.getD p.current_question_index "") ∧
    (process_next_question questions ask validate now p hr).2.ai_response
      = some (ask (questions.getD p.current_question_index "")) ∧
    (process_next_question questions ask validate now p hr).2.validation_result
      = some false := by
  rw [pnq_confirmed_serve_eq questions ask validate now p hr h0 hlt hv]
  refine ⟨by simp, ?_, rfl, rfl, rfl, rfl, rfl, rfl, rfl, rfl⟩
  by_cases hm : p.current_question_index - 1 ∈ p.completed_questions <;> simp [hm]

/-- Witness for C4: the hypotheses hold for a two-question catalog with the
cursor at 1 and the always-keep classifier, and the theorem applies. -/
theorem confirmed_case_witness :
    (0 < (probe_progress 1).current_question_index ∧
     (probe_progress 1).current_question_index < (["Q1", "Q2"] : List String).length ∧
     (probe_validate_false (["Q1", "Q2"].getD 0 "") (probe_progress 1).last_ai_response
        "yes, correct").validation_indenty = false) ∧
    (process_next_question ["Q1", "Q2"] probe_ask probe_validate_false "t1"
        (probe_progress 1) "yes, correct").1.current_question_index = 2 :=
  ⟨⟨by decide, by decide, rfl⟩,
   by
     have h := (confirmed_case ["Q1", "Q2"] probe_ask probe_validate_false
       "t1" (probe_progress 1) "yes, correct" (by decide) (by decide) rfl).2.2.1
     simpa [probe_progress] using h⟩

/-- **C5**: first-turn case.  With the cursor at 0 no classification is
performed (the outcome is independent of the classifier oracle) and the
call behaves like `start`: it serves `catalog[0]` through the answering
agent, advances the cursor to 1, persists, and the result carries question
number 1 and `validation_result = None`. -/
theorem first_call_case
    (questions : List String) (ask : String → String)
    (validate validate' : String → String → String → validation)
    (now : String) (p : Progress) (hr : String)
    (h0 : p.current_question_index = 0)
    (hlen : 0 < questions.length) :
    process_next_question questions ask validate now p hr =
      process_next_question questions ask validate' now p hr ∧
    (process_next_question questions ask validate now p hr).2.question
      = some (questions.getD 0 "") ∧
    (process_next_question questions ask validate now p hr).2.ai_response
      = some (ask (questions.getD 0 "")) ∧
    (process_next_question questions ask validate now p hr).1.current_question_index
      = 1 ∧
    (process_next_question questions ask validate now p hr).1.last_updated
      = now ∧
    (process_next_question questions ask validate now p hr).2.question_number
      = some 1 ∧
    (process_next_question questions ask validate now p hr).2.validation_result
      = none := by
  have hg : ¬(0 < p.current_question_index ∧
      p.current_question_index ≤ questions.length) := by omega
  have hs : p.current_question_index < questions.length := by omega
  rw [pnq_skip_eq questions ask validate now p hr hg,
    pnq_skip_eq questions ask validate' now p hr hg,
    acq_serve_eq questions ask now none p hs]
  exact ⟨rfl, by simp [h0], by simp [h0], by simp [h0], rfl, by simp [h0], rfl⟩

/-- Witness for C5: the hypotheses hold for a fresh progress record over a
one-question catalog, and the theorem applies. -/
theorem first_call_case_witness :
    ((probe_progress 0).current_question_index = 0 ∧
     0 < (["Q1"] : List String).length) ∧
    (process_next_question ["Q1"] probe_ask probe_validate_true "t1"
        (probe_progress 0) "hello").2.question_number = some 1 :=
  ⟨⟨rfl, by decide⟩,
   (first_call_case ["Q1"] probe_ask probe_validate_true probe_validate_false
      "t1" (probe_progress 0) "hello" rfl (by decide)).2.2.2.2.2.1⟩

/-! ### Session-memory claims -/

/-- **C9** counterexample: a session-memory write that omits `client_id`
and `reference` does **not** retain previously stored sticky values.
`store_conversation_memory` stores exactly its arguments (replace-on-write),
and `process_question` passes its raw parameters to the store (the merge
into the local dict on `client.py` lines 330-333 is discarded), so calling
it with both ids omitted over a memory holding sticky values clears them
to null. -/
theorem memory_write_clears_sticky :
    sticky_memory_probe.client_id = some "TESTDEM1" ∧
    sticky_memory_probe.reference = some "individual" ∧
    (process_question (some sticky_memory_probe) "reply" "hello" "u"
        none none "t1").1.client_id = none ∧
    (process_question (some sticky_memory_probe) "reply" "hello" "u"
        none none "t1").1.reference = none :=
  ⟨rfl, rfl, rfl, rfl⟩

/-- **C9** amended: the raw store is replace-on-write, and sticky retention
holds for writes issued through `ask_question`: when the caller omits
(`None`/empty) `client_id`/`reference`, `ask_question` re-reads them from
the stored memory before invoking `process_question`, so the write
re-stores the previously sticky values. -/
theorem ask_question_preserves_sticky
    (m : MemoryData) (agentReply question user_id recent_context now : String)
    (c r : String)
    (hc : m.client_id = some c) (hrf : m.reference = some r) :
    (ask_question (some m) agentReply question user_id none none
        recent_context now).1.client_id = some c ∧
    (ask_question (some m) agentReply question user_id none none
        recent_context now).1.reference = some r := by
  simp [ask_question, process_question, store_conversation_memory,
    dictGetClientId, dictGetReference, get_conversation_memory, pyTruthy,
    hc, hrf]

/-- Witness for the amended C9: concrete sticky memory, write through
`ask_question` with both ids omitted; the sticky `client_id` survives. -/
theorem ask_question_preserves_sticky_witness :
    (sticky_memory_probe.client_id = some "TESTDEM1" ∧
     sticky_memory_probe.reference = some "individual") ∧
    (ask_question (some sticky_memory_probe) "reply" "q" "u" none none
        "" "t1").1.client_id = some "TESTDEM1" :=
  ⟨⟨rfl, rfl⟩,
   (ask_question_preserves_sticky sticky_memory_probe "reply" "q" "u" "" "t1"
      "TESTDEM1" "individual" rfl rfl).1⟩

/-! ### Invariant preservation -/

/-- The fresh progress record satisfies the strengthened invariant. -/
theorem engine_inv_init (questions : List String) (uid now : String) :
    engine_inv questions (load_progress_default uid now) := by
  constructor
  · intro i hi
    simp [load_progress_default] at hi
  · intro _
    simp [load_progress_default]

/-- `start_workflow` preserves the strengthened invariant. -/
theorem engine_inv_start (questions : List String) (ask : String → String)
    (now : String) (p : Progress) (h : engine_inv questions p) :
    engine_inv questions (start_workflow questions ask now p).1 := by
  obtain ⟨hInv, hEdge⟩ := h
  by_cases hc : questions.length ≤ p.current_question_index
  · rw [sw_done_eq questions ask now p hc]
    exact ⟨hInv, hEdge⟩
  · push_neg at hc
    rw [sw_serve_eq questions ask now p hc]
    constructor
    · intro i hi
      obtain ⟨h1, h2⟩ := hInv i hi
      exact ⟨Nat.lt_succ_of_lt h1, h2⟩
    · intro _ hmem
      simp only [Nat.add_sub_cancel] at hmem
      exact absurd (hInv _ hmem).1 (lt_irrefl _)

/-- `process_next_question` preserves the strengthened invariant. -/
theorem engine_inv_answer (questions : List String) (ask : String → String)
    (validate : String → String → String → validation) (now hr : String)
    (p : Progress) (h : engine_inv questions p) :
    engine_inv questions (process_next_question questions ask validate now p hr).1 := by
  obtain ⟨hInv, hEdge⟩ := h
  by_cases h0 : 0 < p.current_question_index
  · by_cases hle : p.current_question_index ≤ questions.length
    · by_cases heq : p.current_question_index = questions.length
      · -- terminal branch: record answer `false`, mark `len - 1`, keep cursor
        rw [pnq_terminal_eq questions ask validate now p hr (by omega) heq]
        constructor
        · intro i hi
          simp only [completed_invariant] at hInv
          dsimp only at hi ⊢
          have hi' : i ∈ p.completed_questions ∨ i = questions.length - 1 := by
            by_cases hm : questions.length - 1 ∈ p.completed_questions <;>
              simp [hm] at hi <;> tauto
          refine ⟨?_, ?_⟩
          · rcases hi' with hi' | hi'
            · exact (hInv i hi').1
            · omega
          · by_cases hij : i = questions.length - 1
            · subst hij; simp
            · obtain ⟨a, ha, hwa⟩ := (hInv i (by tauto)).2
              exact ⟨a, by simp [hij, ha], hwa⟩
        · intro hlt
          dsimp only at hlt
          omega
      · -- wants-update branch or confirmed branch
        have hlt : p.current_question_index < questions.length := by omega
        by_cases hw : (validate (questions.getD (p.current_question_index - 1) "")
            p.last_ai_response hr).validation_indenty = true
        · rw [pnq_update_eq questions ask validate now p hr h0 hlt hw]
          have hnc : p.current_question_index - 1 ∉ p.completed_questions :=
            hEdge hlt
          constructor
          · intro i hi
            dsimp only at hi ⊢
            obtain ⟨h1, a, ha, hwa⟩ := hInv i hi
            have hij : i ≠ p.current_question_index - 1 :=
              fun hEq => hnc (hEq ▸ hi)
            exact ⟨h1, a, by simp [hij, ha], hwa⟩
          · intro _
            dsimp only
            exact hnc
        · have hw' : (validate (questions.getD (p.current_question_index - 1) "")
              p.last_ai_response hr).validation_indenty = false := by
            simpa using hw
          rw [pnq_confirmed_serve_eq questions ask validate now p hr h0 hlt hw']
          constructor
          · intro i hi
            simp only [completed_invariant] at hInv
            dsimp only at hi ⊢
            have hi' : i ∈ p.completed_questions ∨ i = p.current_question_index - 1 := by
              by_cases hm : p.current_question_index - 1 ∈ p.completed_questions <;>
                simp [hm] at hi <;> tauto
            refine ⟨?_, ?_⟩
            · rcases hi' with hi' | hi'
              · have := (hInv i hi').1
                omega
              · omega
            · by_cases hij : i = p.current_question_index - 1
              · subst hij; simp
              · obtain ⟨a, ha, hwa⟩ := (hInv i (by tauto)).2
                exact ⟨a, by simp [hij, ha], hwa⟩
          · intro _ hmem
            dsimp only at hmem
            simp only [Nat.add_sub_cancel] at hmem
            have hmem' : p.current_question_index ∈ p.completed_questions ∨
                p.current_question_index = p.current_question_index - 1 := by
              by_cases hm : p.current_question_index - 1 ∈ p.completed_questions <;>
                simp [hm] at hmem <;> tauto
            rcases hmem' with hmem' | hmem'
            · exact absurd (hInv _ hmem').1 (lt_irrefl _)
            · omega
    · -- cursor beyond the catalog: completion report, state preserved
      have hg : ¬(0 < p.current_question_index ∧
          p.current_question_index ≤ questions.length) := by omega
      rw [pnq_skip_eq questions ask validate now p hr hg,
        acq_done_eq questions ask now none p (by omega)]
      constructor
      · intro i hi
        exact hInv i hi
      · intro hlt
        dsimp only [save_progress] at hlt
        omega
  · -- cursor at 0: behaves like start
    have hg : ¬(0 < p.current_question_index ∧
        p.current_question_index ≤ questions.length) := by omega
    rw [pnq_skip_eq questions ask validate now p hr hg]
    by_cases hc : questions.length ≤ p.current_question_index
    · rw [acq_done_eq questions ask now none p hc]
      refine ⟨fun i hi => hInv i hi, fun hlt => ?_⟩
      dsimp only [save_progress] at hlt
      omega
    · push_neg at hc
      rw [acq_serve_eq questions ask now none p hc]
      constructor
      · intro i hi
        dsimp only at hi
        exact absurd (hInv i hi).1 (by omega)
      · intro _ hmem
        dsimp only at hmem
        simp only [Nat.add_sub_cancel] at hmem
        exact absurd (hInv _ hmem).1 (by omega)

/-- Every reachable progress state satisfies the strengthened invariant. -/
theorem reachable_engine_inv (questions : List String) (uid : String)
    (p : Progress) (h : Reachable questions uid p) :
    engine_inv questions p := by
  induction h with
  | init now => exact engine_inv_init questions uid now
  | next_start p ask now _ ih => exact engine_inv_start questions ask now p ih
  | next_answer p ask validate now hr _ ih =>
      exact engine_inv_answer questions ask validate now hr p ih

/-- **C8**: every reachable progress state satisfies the claimed
invariant — `completed_questions` holds only indices strictly below
`current_question_index` whose last recorded answer has
`wants_update = false` — and every `start_workflow` /
`process_next_question` call from a reachable state preserves it. -/
theorem workflow_completed_invariant (questions : List String) (uid : String)
    (p : Progress) (h : Reachable questions uid p)
    (ask : String → String)
    (validate : String → String → String → validation) (now hr : String) :
    completed_invariant p ∧
    completed_invariant (process_next_question questions ask validate now p hr).1 ∧
    completed_invariant (start_workflow questions ask now p).1 :=
  ⟨(reachable_engine_inv questions uid p h).1,
   (engine_inv_answer questions ask validate now hr p
      (reachable_engine_inv questions uid p h)).1,
   (engine_inv_start questions ask now p
      (reachable_engine_inv questions uid p h)).1⟩

/-- Witness for C8: the fresh progress record is reachable, and the
invariant holds after one answer step from it. -/
theorem workflow_completed_invariant_witness :
    Reachable ["Q1"] "u" (load_progress_default "u" "t0") ∧
    completed_invariant (process_next_question ["Q1"] probe_ask
      probe_validate_true "t1" (load_progress_default "u" "t0") "hi").1 :=
  ⟨Reachable.init "t0",
   (workflow_completed_invariant ["Q1"] "u" (load_progress_default "u" "t0")
      (Reachable.init "t0") probe_ask probe_validate_true "t1" "hi").2.1⟩

end TaxWorkflow
